import Mathlib

/-
Verification of the secure-ai-detector record store
(src/blockchain/programs/secure-ai-detector/src/lib.rs).

The on-chain program holds one record per storage account:
a `video_hash : String` (modelled here by its UTF-8 byte sequence,
`List Nat`) and an `authenticity_score : u64` (modelled as `Nat`;
the program performs no arithmetic on it, so no wraparound arises).
The two instruction handlers assign both fields of the account and
emit one diagnostic message on the success path.
-/

namespace SecureAIDetector

/-- The persisted record type (src lib.rs, `pub struct StorageAccount`):
a `video_hash` (a Rust `String`, modelled as its UTF-8 byte sequence)
and an `authenticity_score` (`u64`). -/
structure StorageAccount where
  video_hash : List Nat
  authenticity_score : Nat
deriving DecidableEq, Repr

/-- Lifecycle state of one storage reference: either never allocated, or
bound to a valid record.  `Initialized` corresponds to the account data
carrying the `StorageAccount` discriminator and a deserializable record. -/
inductive Storage where
  | Unallocated : Storage
  | Initialized : StorageAccount → Storage
deriving DecidableEq, Repr

/-- The error taxonomy of the core (spec §7).  `AuthorizationFailed` is
host-detected before the core runs and never reaches these transitions. -/
inductive ErrorKind where
  | CapacityExceeded : ErrorKind
  | AlreadyInitialized : ErrorKind
  | NotInitialized : ErrorKind
deriving DecidableEq, Repr

/-- The allocation size from the `Initialize` accounts struct
(src lib.rs, `space = 8 + 4 + 256 + 8`): 8-byte discriminator,
4-byte length prefix, up to 256 hash bytes, 8-byte score. -/
def SPACE : Nat := 8 + 4 + 256 + 8

/-- Serialized size of a record holding `hash`: 8-byte discriminator,
4-byte length prefix plus the hash bytes, 8-byte score. -/
def serializedSize (hash : List Nat) : Nat := 8 + 4 + hash.length + 8

/-- The diagnostic event emitted by `msg!` in each handler: it records the
stored hash and score (observability only). -/
structure Event where
  hash : List Nat
  score : Nat
deriving DecidableEq, Repr

/-- Body of the `initialize` handler (src lib.rs lines 9-15): assigns
`video_hash` and `authenticity_score` on the resolved account. -/
def createBody (storage_account : StorageAccount) (video_hash : List Nat)
    (authenticity_score : Nat) : StorageAccount :=
  { storage_account with
      video_hash := video_hash
      authenticity_score := authenticity_score }

/-- Body of the `update` handler (src lib.rs lines 17-23): assigns
`video_hash := new_video_hash` and
`authenticity_score := new_authenticity_score` on the resolved account. -/
def updateBody (storage_account : StorageAccount) (new_video_hash : List Nat)
    (new_authenticity_score : Nat) : StorageAccount :=
  { storage_account with
      video_hash := new_video_hash
      authenticity_score := new_authenticity_score }

/-- Freshly allocated, zero-valued storage contents: empty string, zero
score (spec §4.1 precondition of `create`). -/
def freshAccount : StorageAccount :=
  { video_hash := [], authenticity_score := 0 }

/-- The `create` operation on one storage reference.  The handler body is
`createBody` from src.  The gating around it is modelled from the spec:
the `init` constraint on the `Initialize` accounts struct rejects storage
already bound to a record (`AlreadyInitialized`), allocation is sized
`SPACE`, and writing back a record whose serialized form exceeds that
capacity fails (`CapacityExceeded`); on failure the host discards all
effects, so no new state or event is produced (spec §4.2, §5, §7).
On success the handler emits the diagnostic event. -/
def create (s : Storage) (video_hash : List Nat) (authenticity_score : Nat) :
    Except ErrorKind (Storage × Event) :=
  match s with
  | .Initialized _ => .error .AlreadyInitialized
  | .Unallocated =>
      if SPACE < serializedSize video_hash then
        .error .CapacityExceeded
      else
        let acct := createBody freshAccount video_hash authenticity_score
        .ok (.Initialized acct, ⟨acct.video_hash, acct.authenticity_score⟩)

/-- The `overwrite` operation on one storage reference.  The handler body
is `updateBody` from src.  The gating is modelled from the spec: the
`Update` accounts struct requires an account that deserializes as a bound
`StorageAccount` record (`NotInitialized` otherwise), and writing back a
record whose serialized form exceeds the fixed capacity fails
(`CapacityExceeded`); on failure the host discards all effects
(spec §4.2, §5, §7).  On success the handler emits the diagnostic
event.  No signer account is declared by `Update` (src lib.rs lines
36-39), so no caller identity enters the computation. -/
def overwrite (s : Storage) (new_video_hash : List Nat)
    (new_authenticity_score : Nat) : Except ErrorKind (Storage × Event) :=
  match s with
  | .Unallocated => .error .NotInitialized
  | .Initialized acct =>
      if SPACE < serializedSize new_video_hash then
        .error .CapacityExceeded
      else
        let acct' := updateBody acct new_video_hash new_authenticity_score
        .ok (.Initialized acct', ⟨acct'.video_hash, acct'.authenticity_score⟩)

/-- Reading a storage reference through the interface: deserializes the
bound record, or nothing when unallocated. -/
def read : Storage → Option StorageAccount
  | .Unallocated => none
  | .Initialized acct => some acct

/-- The events emitted by one operation: one diagnostic on success,
none on failure (the transaction aborts, spec §7). -/
def eventsOf : Except ErrorKind (Storage × Event) → List Event
  | .ok (_, ev) => [ev]
  | .error _ => []

/-- One submitted operation naming its arguments. -/
inductive Op where
  | createOp (hash : List Nat) (score : Nat) : Op
  | overwriteOp (hash : List Nat) (score : Nat) : Op
deriving DecidableEq, Repr

/-- The state transition one transaction induces on a storage reference:
a successful operation installs the new state; a failed operation leaves
the state unchanged (the host's transactional rollback, spec §5, §7). -/
def step (s : Storage) (op : Op) : Storage :=
  match op with
  | .createOp hash score =>
      match create s hash score with
      | .ok (s', _) => s'
      | .error _ => s
  | .overwriteOp hash score =>
      match overwrite s hash score with
      | .ok (s', _) => s'
      | .error _ => s

/-- Running a sequence of submitted operations on one storage reference,
in the order the host serializes them. -/
def run (s : Storage) (ops : List Op) : Storage := ops.foldl step s

/-- Whether a storage reference is bound to a valid record. -/
def isInitialized : Storage → Bool
  | .Unallocated => false
  | .Initialized _ => true

/-- The `update` instruction as invoked in a transaction.  The `Update`
accounts struct (src lib.rs lines 36-39) declares only the mutable
storage account and names no `Signer` and no authority, so the caller's
identity and signature are not consulted: the handler is `overwrite`
applied to the storage alone, whatever `caller` and `callerSigned` are. -/
def updateEntry (caller : Nat) (callerSigned : Bool) (s : Storage)
    (new_video_hash : List Nat) (new_authenticity_score : Nat) :
    Except ErrorKind (Storage × Event) :=
  overwrite s new_video_hash new_authenticity_score

/-- Little-endian 4-byte encoding of a length (borsh `u32` prefix). -/
def u32le (n : Nat) : List Nat :=
  [n % 256, n / 2 ^ 8 % 256, n / 2 ^ 16 % 256, n / 2 ^ 24 % 256]

/-- Little-endian 8-byte encoding of the score (borsh `u64`). -/
def u64le (n : Nat) : List Nat :=
  [n % 256, n / 2 ^ 8 % 256, n / 2 ^ 16 % 256, n / 2 ^ 24 % 256,
   n / 2 ^ 32 % 256, n / 2 ^ 40 % 256, n / 2 ^ 48 % 256, n / 2 ^ 56 % 256]

/-- Modelled from the spec: the persisted envelope of one record
(spec §6) — the 8-byte type discriminator `disc`, then the borsh
serialization of `StorageAccount` in declared field order: 4-byte
little-endian length prefix plus the hash bytes, then the 8-byte
little-endian score.  The discriminator bytes themselves are a host/
framework constant not present in src, so the encoder takes them as a
parameter of length 8. -/
def serializeRecord (disc : List Nat) (acct : StorageAccount) : List Nat :=
  disc ++ u32le acct.video_hash.length ++ acct.video_hash
       ++ u64le acct.authenticity_score

/-- A successful `overwrite` can only have produced the record built from
its own arguments, with the matching event, and only under the capacity
bound. -/
lemma overwrite_ok_inv (s s' : Storage) (ev : Event) (hash : List Nat)
    (score : Nat) (hok : overwrite s hash score = .ok (s', ev)) :
    s' = .Initialized ⟨hash, score⟩ ∧ ev = ⟨hash, score⟩ ∧
      ¬ SPACE < serializedSize hash := by
  cases s with
  | Unallocated => simp [overwrite] at hok
  | Initialized acct =>
      by_cases hc : SPACE < serializedSize hash
      · simp [overwrite, hc] at hok
      · simp [overwrite, hc, updateBody] at hok
        exact ⟨hok.1.symm, hok.2.symm, hc⟩

/-- `overwrite` on a bound record with a hash within capacity succeeds and
installs exactly the record built from its arguments. -/
lemma overwrite_ok_of_fits (acct : StorageAccount) (hash : List Nat)
    (score : Nat) (hlen : hash.length ≤ 256) :
    overwrite (.Initialized acct) hash score
      = .ok (.Initialized ⟨hash, score⟩, ⟨hash, score⟩) := by
  have hc : ¬ SPACE < serializedSize hash := by
    simp only [SPACE, serializedSize]; omega
  simp [overwrite, hc, updateBody]

/-- C1: for every hash whose serialized form fits the allocated capacity
(at most 256 bytes) and every 64-bit score, `create` on unallocated
storage succeeds and the storage deserializes to exactly the record
holding that hash and score. -/
theorem create_stores_exactly (hash : List Nat) (score : Nat)
    (hlen : hash.length ≤ 256) (hscore : score < 2 ^ 64) :
    ∃ s' ev, create .Unallocated hash score = .ok (s', ev) ∧
      read s' = some ⟨hash, score⟩ := by
  refine ⟨.Initialized ⟨hash, score⟩, ⟨hash, score⟩, ?_, rfl⟩
  have hc : ¬ SPACE < serializedSize hash := by
    simp only [SPACE, serializedSize]; omega
  simp [create, hc, createBody, freshAccount]

/-- Witness for C1 at hash `[202, 254]`, score `950`. -/
theorem create_stores_exactly_witness :
    ∃ s' ev, create .Unallocated [202, 254] 950 = .ok (s', ev) ∧
      read s' = some ⟨[202, 254], 950⟩ :=
  create_stores_exactly [202, 254] 950 (by decide) (by norm_num)

/-- C2: every successful `overwrite` leaves the storage deserializing to
exactly the new record: both prior fields are fully replaced, and the
state holds nothing but the new hash and score, so no trace of the old
values is recoverable through the interface. -/
theorem overwrite_replaces_exactly (s s' : Storage) (ev : Event)
    (hash : List Nat) (score : Nat)
    (hok : overwrite s hash score = .ok (s', ev)) :
    s' = .Initialized ⟨hash, score⟩ ∧ read s' = some ⟨hash, score⟩ := by
  obtain ⟨hs, -, -⟩ := overwrite_ok_inv s s' ev hash score hok
  exact ⟨hs, by rw [hs]; rfl⟩

/-- Witness for C2: overwriting the record `([1], 2)` with `([7], 3)`. -/
theorem overwrite_replaces_exactly_witness :
    Storage.Initialized ⟨[7], 3⟩ = Storage.Initialized ⟨[7], 3⟩ ∧
      read (.Initialized ⟨[7], 3⟩) = some ⟨[7], 3⟩ :=
  overwrite_replaces_exactly (.Initialized ⟨[1], 2⟩) (.Initialized ⟨[7], 3⟩)
    ⟨[7], 3⟩ [7] 3 rfl

/-- C3: when the serialized form (8-byte discriminator, 4-byte length
prefix plus hash bytes, 8-byte score) exceeds the 276-byte capacity,
`create` fails with `CapacityExceeded`, the state transition leaves the
storage unallocated, and no diagnostic event is emitted. -/
theorem create_capacity_exceeded (hash : List Nat) (score : Nat)
    (hbig : SPACE < serializedSize hash) :
    create .Unallocated hash score = .error .CapacityExceeded ∧
    step .Unallocated (.createOp hash score) = .Unallocated ∧
    eventsOf (create .Unallocated hash score) = [] := by
  have h1 : create .Unallocated hash score = .error .CapacityExceeded := by
    simp [create, hbig]
  exact ⟨h1, by simp [step, h1], by simp [eventsOf, h1]⟩

set_option maxRecDepth 4096 in
/-- Witness for C3 at a 257-byte hash. -/
theorem create_capacity_exceeded_witness :
    create .Unallocated (List.replicate 257 0) 1 = .error .CapacityExceeded ∧
    step .Unallocated (.createOp (List.replicate 257 0) 1) = .Unallocated ∧
    eventsOf (create .Unallocated (List.replicate 257 0) 1) = [] :=
  create_capacity_exceeded (List.replicate 257 0) 1
    (by simp [SPACE, serializedSize])

/-- C4: `create` on a storage reference already holding a valid record
fails with `AlreadyInitialized`, and the transition leaves the existing
record's fields unchanged. -/
theorem create_on_bound_fails (acct : StorageAccount) (hash : List Nat)
    (score : Nat) :
    create (.Initialized acct) hash score = .error .AlreadyInitialized ∧
    step (.Initialized acct) (.createOp hash score) = .Initialized acct :=
  ⟨rfl, rfl⟩

/-- C5: `overwrite` on a storage reference never initialized fails with
`NotInitialized`, and the transition leaves the storage unallocated. -/
theorem overwrite_unbound_fails (hash : List Nat) (score : Nat) :
    overwrite .Unallocated hash score = .error .NotInitialized ∧
    step .Unallocated (.overwriteOp hash score) = .Unallocated :=
  ⟨rfl, rfl⟩

/-- C6: the allocation is exactly 8 + 4 + 256 + 8 = 276 bytes, and the
persisted envelope is, in order, the 8-byte discriminator, the 4-byte
length prefix plus the hash bytes, and the 8-byte score, whose lengths
sum to 8 + 4 + len + 8, within 276 whenever the hash fits 256 bytes. -/
theorem record_layout_fixed :
    SPACE = 8 + 4 + 256 + 8 ∧ SPACE = 276 ∧
    (∀ disc acct, disc.length = 8 →
      serializeRecord disc acct =
        disc ++ u32le acct.video_hash.length ++ acct.video_hash
             ++ u64le acct.authenticity_score ∧
      (u32le acct.video_hash.length).length = 4 ∧
      (u64le acct.authenticity_score).length = 8 ∧
      (serializeRecord disc acct).length
        = 8 + 4 + acct.video_hash.length + 8) ∧
    (∀ disc acct, disc.length = 8 → acct.video_hash.length ≤ 256 →
      (serializeRecord disc acct).length ≤ SPACE) := by
  refine ⟨rfl, rfl, ?_, ?_⟩
  · intro disc acct hdisc
    refine ⟨rfl, rfl, rfl, ?_⟩
    simp [serializeRecord, u32le, u64le, hdisc]
    omega
  · intro disc acct hdisc hlen
    simp [serializeRecord, u32le, u64le, hdisc, SPACE]
    omega

/-- Witness for C6 at discriminator `[0,...,7]` and record `([9], 5)`. -/
theorem record_layout_fixed_witness :
    (serializeRecord [0, 1, 2, 3, 4, 5, 6, 7] ⟨[9], 5⟩).length
      = 8 + 4 + ([9] : List Nat).length + 8 ∧
    (serializeRecord [0, 1, 2, 3, 4, 5, 6, 7] ⟨[9], 5⟩).length ≤ SPACE :=
  ⟨(record_layout_fixed.2.2.1 [0, 1, 2, 3, 4, 5, 6, 7] ⟨[9], 5⟩ rfl).2.2.2,
   record_layout_fixed.2.2.2 [0, 1, 2, 3, 4, 5, 6, 7] ⟨[9], 5⟩ rfl
     (by decide)⟩

/-- C7: the `update` entry point imposes no signer or creator-identity
precondition: its outcome is identical for any two callers, signed or
not, and on a bound record any caller succeeds (given the new hash fits),
installing exactly the new record. -/
theorem update_ignores_caller (c1 c2 : Nat) (b1 b2 : Bool)
    (acct : StorageAccount) (hash : List Nat) (score : Nat)
    (hlen : hash.length ≤ 256) :
    updateEntry c1 b1 (.Initialized acct) hash score
      = updateEntry c2 b2 (.Initialized acct) hash score ∧
    ∃ ev, updateEntry c1 b1 (.Initialized acct) hash score
      = .ok (.Initialized ⟨hash, score⟩, ev) :=
  ⟨rfl, ⟨hash, score⟩,
    by simpa [updateEntry] using overwrite_ok_of_fits acct hash score hlen⟩

/-- Witness for C7: two distinct callers, one signed and one not, on the
record `([1], 2)`. -/
theorem update_ignores_caller_witness :
    updateEntry 11 true (.Initialized ⟨[1], 2⟩) [7] 9
      = updateEntry 22 false (.Initialized ⟨[1], 2⟩) [7] 9 ∧
    ∃ ev, updateEntry 11 true (.Initialized ⟨[1], 2⟩) [7] 9
      = .ok (.Initialized ⟨[7], 9⟩, ev) :=
  update_ignores_caller 11 22 true false ⟨[1], 2⟩ [7] 9 (by decide)

/-- C8: `overwrite` is idempotent: applying the same arguments to the
state a successful `overwrite` produced yields that same state and event
again — the repeated call is a no-op on the observed value. -/
theorem overwrite_idempotent (s s' : Storage) (ev : Event)
    (hash : List Nat) (score : Nat)
    (hok : overwrite s hash score = .ok (s', ev)) :
    overwrite s' hash score = .ok (s', ev) := by
  obtain ⟨hs, hev, hc⟩ := overwrite_ok_inv s s' ev hash score hok
  subst hs; subst hev
  simp [overwrite, hc, updateBody]

/-- Witness for C8: overwriting `([1], 2)` with `([5], 6)` and repeating. -/
theorem overwrite_idempotent_witness :
    overwrite (.Initialized ⟨[5], 6⟩) [5] 6
      = .ok (.Initialized ⟨[5], 6⟩, ⟨[5], 6⟩) :=
  overwrite_idempotent (.Initialized ⟨[1], 2⟩) (.Initialized ⟨[5], 6⟩)
    ⟨[5], 6⟩ [5] 6 rfl

/-- A single transition never takes a bound storage reference back to
`Unallocated`: `create` fails and leaves it unchanged, and `overwrite`
either fails (unchanged) or installs a bound record. -/
lemma step_preserves_bound (s : Storage) (op : Op)
    (hs : isInitialized s = true) : isInitialized (step s op) = true := by
  cases s with
  | Unallocated => simp [isInitialized] at hs
  | Initialized acct =>
      cases op with
      | createOp hash score => exact hs
      | overwriteOp hash score =>
          by_cases hc : SPACE < serializedSize hash
          · simp [step, overwrite, hc, isInitialized]
          · simp [step, overwrite, hc, isInitialized]

/-- C9: along every sequence of submitted operations, once a storage
reference is bound to a record it never returns to `Unallocated`: no
transition of this core de-initializes it, and failed operations leave
the state unchanged. -/
theorem bound_is_terminal (ops : List Op) (acct : StorageAccount) :
    isInitialized (run (.Initialized acct) ops) = true := by
  suffices h : ∀ s : Storage, isInitialized s = true →
      isInitialized (run s ops) = true from h _ rfl
  induction ops with
  | nil => intro s hs; exact hs
  | cons op rest ih =>
      intro s hs
      exact ih (step s op) (step_preserves_bound s op hs)

/-- C10: the result of `overwrite` is independent of the prior record
contents: on any two bound states it yields identical outcomes for the
same arguments — the handler never reads, merges, or branches on the
previously stored field values. -/
theorem overwrite_prior_independent (a1 a2 : StorageAccount)
    (hash : List Nat) (score : Nat) :
    overwrite (.Initialized a1) hash score
      = overwrite (.Initialized a2) hash score := by
  simp [overwrite, updateBody]

end SecureAIDetector
